import Mathlib

/-!
Shallow embedding of the healthcare-task-dashboard Task Service
(src/main.py, src/models.py, src/database.py): a CRUD HTTP API over a
single relational `tasks` table.

Modelling choices, each traced to the source:
* A stored row (`Task`) mirrors the SQLAlchemy model in src/models.py:
  `id` is an `Option Nat` because the primary-key column is populated by
  the store on insert and is absent only on a not-yet-persisted object;
  `title` is declared `nullable=False`, the other columns are nullable.
* The store is the list of rows plus the auto-increment sequence that
  backs the `id` primary key.
* `update_task` and `delete_task` in src/main.py RETURN (do not raise)
  `HTTPException(404, ...)` on a missing row; a returned value is
  serialized by the framework with the default 200 status, which the
  `Response` type and `Response.httpStatus` make explicit.
* A commit that writes NULL into the `title` column violates the
  `nullable=False` constraint of the table: the database raises an
  integrity error the handler does not catch, the request fails and the
  transaction is discarded (the scoped session is closed uncommitted).
-/

namespace TaskDashboard

/-- ISO calendar date transmitted as a string. Its internal structure is
irrelevant to the properties proved here, so it is kept opaque as text. -/
abbrev DateStr := String

/-- One row of the `tasks` table (class `Task` in src/models.py).
The `id` column is `primary_key=True` and store-assigned; `title` is
`nullable=False`; `assigned_to`, `status` and `due_date` are nullable. -/
structure Task where
  id : Option Nat
  title : Option String
  assigned_to : Option String
  status : Option String
  due_date : Option DateStr
deriving DecidableEq, Repr

/-- The relational store visible to the service: the rows of the `tasks`
table and the auto-increment sequence backing the `id` primary key. -/
structure Store where
  rows : List Task
  nextId : Nat
deriving DecidableEq, Repr

/-- The freshly created database of src/database.py: no rows, and the
serial primary-key sequence starting at 1. -/
def emptyStore : Store := ⟨[], 1⟩

/-- The lookup `db.query(models.Task).filter(models.Task.id == task_id).first()`
used by both `update_task` and `delete_task` (src/main.py). -/
def findTask (s : Store) (task_id : Nat) : Option Task :=
  s.rows.find? (fun r => r.id == some task_id)

/-- Raw JSON body of a POST /tasks/ request before validation: each field
may be missing or null (both arrive as `none`). -/
structure RawCreate where
  title : Option String
  assigned_to : Option String
  status : Option String
  due_date : Option DateStr
deriving DecidableEq, Repr

/-- The pydantic schema `TaskCreate` (src/main.py lines 41-49): `title` is
required (`title: str`), the other three fields are optional with default
`None`. -/
structure TaskCreate where
  title : String
  assigned_to : Option String
  status : Option String
  due_date : Option DateStr
deriving DecidableEq, Repr

/-- Pydantic validation of a create body against `TaskCreate`: a body whose
`title` is missing or null is rejected before the handler (and hence the
store) is ever reached, naming the failing field and expected type. -/
def validateCreate (r : RawCreate) : Except String TaskCreate :=
  match r.title with
  | none => Except.error "title: field required (type=str)"
  | some t => Except.ok ⟨t, r.assigned_to, r.status, r.due_date⟩

/-- One field of a PUT body: either absent from the request (`unset`) or
explicitly present with a possibly-null value (`set v`). Pydantic's
`task.dict(exclude_unset=True)` in `update_task` keeps exactly the `set`
fields, so an explicit null is distinct from an omitted field. -/
inductive FieldU (α : Type) where
  | unset : FieldU α
  | set : Option α → FieldU α
deriving DecidableEq, Repr

/-- The pydantic schema `TaskUpdate` (src/main.py lines 83-90): every field
optional, allowing any subset of fields in the body. -/
structure TaskUpdate where
  title : FieldU String
  assigned_to : FieldU String
  status : FieldU String
  due_date : FieldU DateStr
deriving DecidableEq, Repr

/-- Value of one column after the `setattr` loop: a field present in the
body overwrites the column, an absent field leaves it unchanged. -/
def applyField {α : Type} (f : FieldU α) (old : Option α) : Option α :=
  match f with
  | FieldU.unset => old
  | FieldU.set v => v

/-- The `setattr` loop of `update_task` (src/main.py lines 108-110) applied
to the found row: exactly the fields present in the body are written; the
`id` column is not a `TaskUpdate` field and is never touched. -/
def applyUpdate (u : TaskUpdate) (t : Task) : Task :=
  { t with
    title := applyField u.title t.title
    assigned_to := applyField u.assigned_to t.assigned_to
    status := applyField u.status t.status
    due_date := applyField u.due_date t.due_date }

/-- The NOT NULL constraint the store enforces when a row is flushed at
commit: `title` is `nullable=False` in src/models.py; every other column
is nullable, so it is the only constraint a write can violate. -/
def rowValid (t : Task) : Bool := t.title.isSome

/-- Replace the first row matching the primary key with the mutated row:
`update_task` mutates the single object returned by `.first()` and commits,
so exactly one row (the first match) changes. -/
def replaceFirst (task_id : Nat) (t' : Task) : List Task → List Task
  | [] => []
  | r :: rs => if r.id == some task_id then t' :: rs else r :: replaceFirst task_id t' rs

/-- What a route handler hands back to the framework, as the client sees
it. `errorBody` is an `HTTPException` value RETURNED (not raised) by the
handler, which the framework serializes as an ordinary response body;
`validationError` is a pydantic rejection raised before the handler runs;
`storeFault` is an unhandled database error surfacing to the caller. -/
inductive Response where
  | taskBody : Task → Response
  | taskListBody : List Task → Response
  | messageBody : String → Response
  | errorBody : Nat → String → Response
  | validationError : String → Response
  | storeFault : String → Response
deriving DecidableEq, Repr

/-- The HTTP status the client observes for each outcome: a value returned
normally from a handler — including a returned, unraised `HTTPException` —
is serialized with the default 200 status; a pydantic validation failure
yields 422; an unhandled store error yields a 500-class fault. -/
def Response.httpStatus : Response → Nat
  | Response.taskBody _ => 200
  | Response.taskListBody _ => 200
  | Response.messageBody _ => 200
  | Response.errorBody _ _ => 200
  | Response.validationError _ => 422
  | Response.storeFault _ => 500

/-- The handler `create_task` (src/main.py lines 55-69) after successful
validation: builds `models.Task(**task.dict())`, adds and commits it, and
refreshes to obtain the store-assigned `id`; returns the created row. -/
def create_task (task : TaskCreate) (s : Store) : Task × Store :=
  let db_task : Task :=
    ⟨some s.nextId, some task.title, task.assigned_to, task.status, task.due_date⟩
  (db_task, ⟨s.rows ++ [db_task], s.nextId + 1⟩)

/-- POST /tasks/ as observed by the client: pydantic validates the raw body
against `TaskCreate` before the handler runs; on failure the request is
rejected and nothing reaches the store. -/
def createRoute (r : RawCreate) (s : Store) : Response × Store :=
  match validateCreate r with
  | Except.error e => (Response.validationError e, s)
  | Except.ok task =>
      let p := create_task task s
      (Response.taskBody p.1, p.2)

/-- The handler `get_tasks` (src/main.py lines 72-80):
`db.query(models.Task).all()` — every row, no filtering. -/
def get_tasks (s : Store) : List Task := s.rows

/-- The handler `update_task` (src/main.py lines 94-114): find the row by
id; if absent, RETURN (not raise) `HTTPException(404, "Task not found")`;
otherwise apply exactly the provided fields to the found row and commit.
A commit that leaves `title` NULL violates the table constraint: the
database error is unhandled and the uncommitted change is discarded. -/
def update_task (task_id : Nat) (task : TaskUpdate) (s : Store) : Response × Store :=
  match findTask s task_id with
  | none => (Response.errorBody 404 "Task not found", s)
  | some db_task =>
      let t' := applyUpdate task db_task
      if rowValid t' then
        (Response.taskBody t', ⟨replaceFirst task_id t' s.rows, s.nextId⟩)
      else
        (Response.storeFault "IntegrityError: null value in column title", s)

/-- The handler `delete_task` (src/main.py lines 119-134): find the row by
id; if absent, RETURN (not raise) `HTTPException(404, "Task not found")`;
otherwise delete that row, commit, and return the confirmation message. -/
def delete_task (task_id : Nat) (s : Store) : Response × Store :=
  match findTask s task_id with
  | none => (Response.errorBody 404 "Task not found", s)
  | some _ =>
      (Response.messageBody ("Task " ++ toString task_id ++ " deleted successfully"),
       ⟨s.rows.eraseP (fun r => r.id == some task_id), s.nextId⟩)

/-- The title column of every row of the store is populated (non-NULL). -/
def titlePresent (s : Store) : Bool :=
  s.rows.all (fun t => t.title.isSome)

/-- Stores reachable from a fresh database through the service's routes. -/
inductive Reach : Store → Prop where
  | init : Reach emptyStore
  | step_create (r : RawCreate) {s : Store} : Reach s → Reach (createRoute r s).2
  | step_update (task_id : Nat) (u : TaskUpdate) {s : Store} :
      Reach s → Reach (update_task task_id u s).2
  | step_delete (task_id : Nat) {s : Store} : Reach s → Reach (delete_task task_id s).2

/-! Helper lemmas shared by several claims. -/

/-- A row equal under boolean equality to a given primary key has that key. -/
theorem id_eq_of_beq {t : Task} {task_id : Nat} (h : (t.id == some task_id) = true) :
    t.id = some task_id :=
  eq_of_beq h

/-- The row returned by `findTask` carries the requested primary key. -/
theorem findTask_id {s : Store} {task_id : Nat} {t : Task}
    (h : findTask s task_id = some t) : t.id = some task_id := by
  have h' : s.rows.find? (fun r => r.id == some task_id) = some t := h
  have hp := List.find?_some h'
  exact id_eq_of_beq hp

/-- Replacing the first row holding a given primary key with a row holding
the same key leaves the sequence of primary keys of the table unchanged. -/
theorem map_id_replaceFirst (task_id : Nat) (t' : Task) (h : t'.id = some task_id)
    (l : List Task) : (replaceFirst task_id t' l).map Task.id = l.map Task.id := by
  induction l with
  | nil => rfl
  | cons r rs ih =>
    by_cases hc : (r.id == some task_id) = true
    · have hr := id_eq_of_beq hc
      simp [replaceFirst, hc, h, hr]
    · simp [replaceFirst, hc, ih]

/-- When primary keys are unique, erasing the first row with a given key
leaves no row with that key behind. -/
theorem find?_eraseP_self (task_id : Nat) (l : List Task)
    (h : (l.map Task.id).Nodup) :
    (l.eraseP (fun r => r.id == some task_id)).find? (fun r => r.id == some task_id)
      = none := by
  induction l with
  | nil => rfl
  | cons r rs ih =>
    simp only [List.map_cons, List.nodup_cons] at h
    by_cases hc : (r.id == some task_id) = true
    · have hr := id_eq_of_beq hc
      have herase : (r :: rs).eraseP (fun x => x.id == some task_id) = rs := by
        simp [List.eraseP_cons, hc]
      rw [herase, List.find?_eq_none]
      intro x hx hpx
      have hx_id : x.id = some task_id := id_eq_of_beq hpx
      apply h.1
      rw [hr, ← hx_id]
      exact List.mem_map_of_mem Task.id hx
    · have hcf : (r.id == some task_id) = false := by simpa using hc
      have herase : (r :: rs).eraseP (fun x => x.id == some task_id)
          = r :: rs.eraseP (fun x => x.id == some task_id) := by
        simp [List.eraseP_cons, hcf]
      rw [herase]
      have hrest := ih h.2
      simp [List.find?_cons, hcf, hrest]

/-- A rowwise property holding of the table and of the mutated row still
holds after the mutated row replaces the first row with its key. -/
theorem all_replaceFirst (p : Task → Bool) (task_id : Nat) (t' : Task) (l : List Task)
    (hl : l.all p = true) (ht : p t' = true) :
    (replaceFirst task_id t' l).all p = true := by
  induction l with
  | nil => rfl
  | cons r rs ih =>
    simp only [List.all_cons, Bool.and_eq_true] at hl
    by_cases hc : (r.id == some task_id) = true
    · simp [replaceFirst, hc, ht, hl.2]
    · simp [replaceFirst, hc, hl.1, ih hl.2]

/-- A rowwise property of the table survives erasing a row. -/
theorem all_eraseP (p q : Task → Bool) (l : List Task) (hl : l.all p = true) :
    (l.eraseP q).all p = true := by
  rw [List.all_eq_true] at hl ⊢
  intro x hx
  exact hl x (List.Sublist.mem hx (List.eraseP_sublist l))

/-- Primary-key discipline of the tasks table: every row's id column is
populated with a value below the sequence counter, and ids are pairwise
distinct. -/
def pkInv (s : Store) : Prop :=
  (∀ o ∈ s.rows.map Task.id, ∃ k, o = some k ∧ k < s.nextId)
  ∧ (s.rows.map Task.id).Nodup

/-- The primary-key discipline only depends on the id column and the
sequence counter. -/
theorem pkInv_of_same_ids (s s' : Store)
    (hmap : s'.rows.map Task.id = s.rows.map Task.id)
    (hn : s'.nextId = s.nextId) (h : pkInv s) : pkInv s' := by
  obtain ⟨hb, hnd⟩ := h
  refine ⟨?_, ?_⟩
  · rw [hmap, hn]
    exact hb
  · rw [hmap]
    exact hnd

/-- Every store reachable through the service's routes satisfies the
primary-key discipline; in particular the uniqueness hypothesis of the
double-delete theorem holds of every state the service can be in. -/
theorem reach_pkInv (s : Store) (h : Reach s) : pkInv s := by
  induction h with
  | init => exact ⟨by simp [emptyStore], by simp [emptyStore]⟩
  | step_create r hs ih =>
    rename_i s
    cases hv : validateCreate r with
    | error e => simpa [createRoute, hv] using ih
    | ok task =>
      obtain ⟨hb, hnd⟩ := ih
      simp only [createRoute, hv, create_task]
      refine ⟨?_, ?_⟩
      · intro o ho
        simp only [List.map_append, List.mem_append, List.map_cons, List.map_nil,
          List.mem_singleton] at ho
        rcases ho with ho | ho
        · obtain ⟨k, hk, hlt⟩ := hb o ho
          exact ⟨k, hk, Nat.lt_succ_of_lt hlt⟩
        · exact ⟨s.nextId, by simp [ho], Nat.lt_succ_self _⟩
      · rw [List.map_append, List.nodup_append]
        refine ⟨hnd, by simp, ?_⟩
        intro o ho ho'
        simp only [List.map_cons, List.map_nil, List.mem_singleton] at ho'
        obtain ⟨k, hk, hlt⟩ := hb o ho
        rw [ho'] at hk
        have : s.nextId = k := by simpa using hk
        omega
  | step_update task_id u hs ih =>
    rename_i s
    cases hf : findTask s task_id with
    | none => simpa [update_task, hf] using ih
    | some t =>
      by_cases hv : rowValid (applyUpdate u t) = true
      · have hid : (applyUpdate u t).id = some task_id := by
          have := findTask_id hf
          simpa [applyUpdate] using this
        simp only [update_task, hf, hv, if_true]
        exact pkInv_of_same_ids s _ (map_id_replaceFirst task_id _ hid s.rows) rfl ih
      · simpa [update_task, hf, hv] using ih
  | step_delete task_id hs ih =>
    rename_i s
    cases hf : findTask s task_id with
    | none => simpa [delete_task, hf] using ih
    | some t =>
      obtain ⟨hb, hnd⟩ := ih
      simp only [delete_task, hf]
      have hsub : List.Sublist
          ((s.rows.eraseP (fun r => r.id == some task_id)).map Task.id)
          (s.rows.map Task.id) :=
        List.Sublist.map _ (List.eraseP_sublist _)
      refine ⟨?_, ?_⟩
      · intro o ho
        exact hb o (hsub.subset ho)
      · exact List.Nodup.sublist hsub hnd

end TaskDashboard

namespace TaskDashboard

/-- C1. Exercising the not-found path of Update and Delete at the concrete
failing input (id 999, empty store): the handlers hand back the
`HTTPException(404, "Task not found")` value as their normal return value,
so the client observes HTTP status 200 with an error-shaped body — not a
genuine failure response as the claim requires. -/
theorem notFound_returned_not_raised :
    (update_task 999 ⟨FieldU.unset, FieldU.unset, FieldU.unset, FieldU.unset⟩ emptyStore).1
      = Response.errorBody 404 "Task not found"
    ∧ (delete_task 999 emptyStore).1 = Response.errorBody 404 "Task not found"
    ∧ Response.httpStatus
        (update_task 999 ⟨FieldU.unset, FieldU.unset, FieldU.unset, FieldU.unset⟩ emptyStore).1
      = 200
    ∧ Response.httpStatus (delete_task 999 emptyStore).1 = 200 := by
  decide

/-- C3. After a successful Create with title "Book checkup", the returned
record carries a non-null store-assigned id, and a subsequent List contains
a record with that exact id and title. -/
theorem create_then_list_contains_id_title (s : Store) :
    ∃ t : Task,
      (createRoute ⟨some "Book checkup", none, none, none⟩ s).1 = Response.taskBody t
      ∧ t.id ≠ none
      ∧ ((get_tasks (createRoute ⟨some "Book checkup", none, none, none⟩ s).2).any
          (fun r => r.id == t.id && r.title == some "Book checkup")) = true := by
  refine ⟨⟨some s.nextId, some "Book checkup", none, none, none⟩, rfl, by simp, ?_⟩
  simp [createRoute, validateCreate, create_task, get_tasks]

/-- C4. A create body whose required `title` field is absent (or null) is
rejected with a validation error naming the field, and the store is left
exactly as it was: no row is persisted and List returns the same records. -/
theorem create_missing_title_rejected (s : Store) (r : RawCreate) (h : r.title = none) :
    createRoute r s = (Response.validationError "title: field required (type=str)", s)
    ∧ get_tasks (createRoute r s).2 = get_tasks s := by
  simp [createRoute, validateCreate, h, get_tasks]

/-- Witness for C4 at the claim's concrete input Create(assigned_to Bob)
on the empty store. -/
theorem create_missing_title_rejected_witness :
    createRoute ⟨none, some "Bob", none, none⟩ emptyStore
      = (Response.validationError "title: field required (type=str)", emptyStore)
    ∧ get_tasks (createRoute ⟨none, some "Bob", none, none⟩ emptyStore).2
      = get_tasks emptyStore :=
  create_missing_title_rejected emptyStore ⟨none, some "Bob", none, none⟩ rfl

/-- C9. Whenever the referenced row exists, Delete returns the confirmation
message referencing the deleted id, of the exact form
"Task id deleted successfully". -/
theorem delete_returns_confirmation (s : Store) (task_id : Nat) (t : Task)
    (h : findTask s task_id = some t) :
    (delete_task task_id s).1
      = Response.messageBody ("Task " ++ toString task_id ++ " deleted successfully") := by
  simp [delete_task, h]

/-- Witness for C9: deleting id 7 from a store holding a row with id 7. -/
theorem delete_returns_confirmation_witness :
    (delete_task 7 ⟨[⟨some 7, some "A", none, none, none⟩], 8⟩).1
      = Response.messageBody ("Task " ++ toString 7 ++ " deleted successfully") :=
  delete_returns_confirmation ⟨[⟨some 7, some "A", none, none, none⟩], 8⟩ 7
    ⟨some 7, some "A", none, none, none⟩ (by decide)

/-- C2. On a successful Update of an existing row, exactly the fields
present in the payload change: every omitted field keeps its prior stored
value, and every supplied field (even one supplied as null) takes the
supplied value. -/
theorem update_applies_only_supplied_fields (s : Store) (task_id : Nat) (u : TaskUpdate)
    (t t' : Task) (s' : Store)
    (hfind : findTask s task_id = some t)
    (hrun : update_task task_id u s = (Response.taskBody t', s')) :
    (u.title = FieldU.unset → t'.title = t.title)
    ∧ (u.assigned_to = FieldU.unset → t'.assigned_to = t.assigned_to)
    ∧ (u.status = FieldU.unset → t'.status = t.status)
    ∧ (u.due_date = FieldU.unset → t'.due_date = t.due_date)
    ∧ (∀ v, u.title = FieldU.set v → t'.title = v)
    ∧ (∀ v, u.assigned_to = FieldU.set v → t'.assigned_to = v)
    ∧ (∀ v, u.status = FieldU.set v → t'.status = v)
    ∧ (∀ v, u.due_date = FieldU.set v → t'.due_date = v) := by
  have ht' : applyUpdate u t = t' := by
    simp only [update_task, hfind] at hrun
    by_cases hv : rowValid (applyUpdate u t) = true
    · rw [if_pos hv] at hrun
      simpa using congrArg Prod.fst hrun
    · rw [if_neg hv] at hrun
      simpa using congrArg Prod.fst hrun
  subst ht'
  refine ⟨fun h => ?_, fun h => ?_, fun h => ?_, fun h => ?_,
          fun v h => ?_, fun v h => ?_, fun v h => ?_, fun v h => ?_⟩ <;>
    simp [applyUpdate, applyField, h]

/-- Witness for C2 at the claim's concrete example: stored task
(id 1, title A, assigned Bob, status open, no due date), payload setting
only status to done. -/
theorem update_applies_only_supplied_fields_witness :
    (((⟨FieldU.unset, FieldU.unset, FieldU.set (some "done"), FieldU.unset⟩ : TaskUpdate).title
        = FieldU.unset →
      (⟨some 1, some "A", some "Bob", some "done", none⟩ : Task).title
        = (⟨some 1, some "A", some "Bob", some "open", none⟩ : Task).title)
    ∧ ((⟨FieldU.unset, FieldU.unset, FieldU.set (some "done"), FieldU.unset⟩ : TaskUpdate).assigned_to
        = FieldU.unset →
      (⟨some 1, some "A", some "Bob", some "done", none⟩ : Task).assigned_to
        = (⟨some 1, some "A", some "Bob", some "open", none⟩ : Task).assigned_to)
    ∧ ((⟨FieldU.unset, FieldU.unset, FieldU.set (some "done"), FieldU.unset⟩ : TaskUpdate).status
        = FieldU.unset →
      (⟨some 1, some "A", some "Bob", some "done", none⟩ : Task).status
        = (⟨some 1, some "A", some "Bob", some "open", none⟩ : Task).status)
    ∧ ((⟨FieldU.unset, FieldU.unset, FieldU.set (some "done"), FieldU.unset⟩ : TaskUpdate).due_date
        = FieldU.unset →
      (⟨some 1, some "A", some "Bob", some "done", none⟩ : Task).due_date
        = (⟨some 1, some "A", some "Bob", some "open", none⟩ : Task).due_date)
    ∧ (∀ v, (⟨FieldU.unset, FieldU.unset, FieldU.set (some "done"), FieldU.unset⟩ : TaskUpdate).title
        = FieldU.set v → (⟨some 1, some "A", some "Bob", some "done", none⟩ : Task).title = v)
    ∧ (∀ v, (⟨FieldU.unset, FieldU.unset, FieldU.set (some "done"), FieldU.unset⟩ : TaskUpdate).assigned_to
        = FieldU.set v → (⟨some 1, some "A", some "Bob", some "done", none⟩ : Task).assigned_to = v)
    ∧ (∀ v, (⟨FieldU.unset, FieldU.unset, FieldU.set (some "done"), FieldU.unset⟩ : TaskUpdate).status
        = FieldU.set v → (⟨some 1, some "A", some "Bob", some "done", none⟩ : Task).status = v)
    ∧ (∀ v, (⟨FieldU.unset, FieldU.unset, FieldU.set (some "done"), FieldU.unset⟩ : TaskUpdate).due_date
        = FieldU.set v → (⟨some 1, some "A", some "Bob", some "done", none⟩ : Task).due_date = v)) :=
  update_applies_only_supplied_fields
    ⟨[⟨some 1, some "A", some "Bob", some "open", none⟩], 2⟩ 1
    ⟨FieldU.unset, FieldU.unset, FieldU.set (some "done"), FieldU.unset⟩
    ⟨some 1, some "A", some "Bob", some "open", none⟩
    ⟨some 1, some "A", some "Bob", some "done", none⟩
    ⟨[⟨some 1, some "A", some "Bob", some "done", none⟩], 2⟩
    (by decide) (by decide)

/-- C5. In any table with unique primary keys (the PRIMARY KEY constraint
of the id column), once Delete(id) has succeeded with a confirmation
message, an immediately following Delete(id) on the resulting store reports
not-found rather than a second success. -/
theorem delete_then_delete_not_found (s : Store) (task_id : Nat) (m : String) (s' : Store)
    (hpk : (s.rows.map Task.id).Nodup)
    (hrun : delete_task task_id s = (Response.messageBody m, s')) :
    (delete_task task_id s').1 = Response.errorBody 404 "Task not found" := by
  cases hf : findTask s task_id with
  | none => simp [delete_task, hf] at hrun
  | some t =>
    simp only [delete_task, hf, Prod.mk.injEq] at hrun
    obtain ⟨-, hs'⟩ := hrun
    have hnone : findTask s' task_id = none := by
      rw [← hs']
      exact find?_eraseP_self task_id s.rows hpk
    simp [delete_task, hnone]

/-- Witness for C5: a one-row store with id 1; the first Delete(1) succeeds
and the second reports not-found. -/
theorem delete_then_delete_not_found_witness :
    (delete_task 1 (⟨[], 2⟩ : Store)).1 = Response.errorBody 404 "Task not found" :=
  delete_then_delete_not_found ⟨[⟨some 1, some "T", none, none, none⟩], 2⟩ 1
    "Task 1 deleted successfully" ⟨[], 2⟩ (by decide) (by decide)

/-- C6. Concrete scenario of the claim: after creating three tasks on a
fresh store, List returns exactly those three records; after deleting the
one with id 2, List returns exactly the remaining two, matched by id —
creates appear, the deleted row is excluded, and nothing is filtered. -/
theorem list_after_three_creates_one_delete :
    get_tasks (createRoute ⟨some "T3", none, none, none⟩
        (createRoute ⟨some "T2", none, none, none⟩
          (createRoute ⟨some "T1", none, none, none⟩ emptyStore).2).2).2
      = [⟨some 1, some "T1", none, none, none⟩, ⟨some 2, some "T2", none, none, none⟩,
         ⟨some 3, some "T3", none, none, none⟩]
    ∧ get_tasks (delete_task 2 (createRoute ⟨some "T3", none, none, none⟩
        (createRoute ⟨some "T2", none, none, none⟩
          (createRoute ⟨some "T1", none, none, none⟩ emptyStore).2).2).2).2
      = [⟨some 1, some "T1", none, none, none⟩, ⟨some 3, some "T3", none, none, none⟩] := by
  decide

/-- C8. The id column is never touched by Update: for every store, id and
payload, the sequence of primary keys of the table is identical before and
after the operation — whatever fields the payload carries. -/
theorem update_preserves_ids (task_id : Nat) (u : TaskUpdate) (s : Store) :
    ((update_task task_id u s).2.rows.map Task.id) = s.rows.map Task.id := by
  cases hf : findTask s task_id with
  | none => simp [update_task, hf]
  | some t =>
    have hid : (applyUpdate u t).id = some task_id := by
      have := findTask_id hf
      simpa [applyUpdate] using this
    by_cases hv : rowValid (applyUpdate u t) = true
    · simp [update_task, hf, hv, map_id_replaceFirst task_id _ hid]
    · simp [update_task, hf, hv]

/-- Witness for C8 at a concrete store and a payload that rewrites every
updatable field. -/
theorem update_preserves_ids_witness :
    ((update_task 1
        ⟨FieldU.set (some "B"), FieldU.set none, FieldU.set (some "done"),
         FieldU.set (some "2026-01-01")⟩
        ⟨[⟨some 1, some "A", some "Bob", some "open", none⟩], 2⟩).2.rows.map Task.id)
      = ([⟨some 1, some "A", some "Bob", some "open", none⟩] : List Task).map Task.id :=
  update_preserves_ids 1
    ⟨FieldU.set (some "B"), FieldU.set none, FieldU.set (some "done"),
     FieldU.set (some "2026-01-01")⟩
    ⟨[⟨some 1, some "A", some "Bob", some "open", none⟩], 2⟩

/-- C7. Invariant over all reachable stores: the title column is populated
on every row. Creation always stores a validated non-null title, and no
Update can commit a row whose title is NULL — the constraint violation
aborts the request and the store keeps its prior contents. -/
theorem reach_title_not_null (s : Store) (h : Reach s) : titlePresent s = true := by
  induction h with
  | init => rfl
  | step_create r hs ih =>
    rename_i s
    cases hv : validateCreate r with
    | error e => simpa [createRoute, hv, titlePresent] using ih
    | ok task =>
      simp only [titlePresent, createRoute, hv, create_task, List.all_append] at ih ⊢
      simp [ih]
  | step_update task_id u hs ih =>
    rename_i s
    cases hf : findTask s task_id with
    | none => simpa [update_task, hf, titlePresent] using ih
    | some t =>
      by_cases hv : rowValid (applyUpdate u t) = true
      · have hall := all_replaceFirst (fun x => x.title.isSome) task_id
          (applyUpdate u t) s.rows ih hv
        simpa [update_task, hf, hv, titlePresent] using hall
      · simpa [update_task, hf, hv, titlePresent] using ih
  | step_delete task_id hs ih =>
    rename_i s
    cases hf : findTask s task_id with
    | none => simpa [delete_task, hf, titlePresent] using ih
    | some t =>
      have hall := all_eraseP (fun x => x.title.isSome)
        (fun r => r.id == some task_id) s.rows ih
      simpa [delete_task, hf, titlePresent] using hall

/-- Witness for C7: the store reached by one successful Create from a fresh
database satisfies the invariant. -/
theorem reach_title_not_null_witness :
    titlePresent (createRoute ⟨some "Book checkup", some "Bob", none, none⟩ emptyStore).2
      = true :=
  reach_title_not_null _
    (Reach.step_create ⟨some "Book checkup", some "Bob", none, none⟩ Reach.init)

/-- C10 counterexample. In the stored row (id 1, title A), an Update whose
payload explicitly carries title = null does NOT set the title column to
null: the commit violates the NOT NULL constraint of the title column, the
request fails with an unhandled store error, and the stored row is
unchanged — so the claim's "and also for title" part fails on the code. -/
theorem explicit_null_title_not_applied :
    (update_task 1 ⟨FieldU.set none, FieldU.unset, FieldU.unset, FieldU.unset⟩
        ⟨[⟨some 1, some "A", some "Bob", some "open", none⟩], 2⟩).1
      = Response.storeFault "IntegrityError: null value in column title"
    ∧ (update_task 1 ⟨FieldU.set none, FieldU.unset, FieldU.unset, FieldU.unset⟩
        ⟨[⟨some 1, some "A", some "Bob", some "open", none⟩], 2⟩).2
      = ⟨[⟨some 1, some "A", some "Bob", some "open", none⟩], 2⟩ := by
  decide

/-- C10 amended. A field explicitly present in the payload with value null
is applied to each nullable column (assigned_to, status, due_date) — unlike
an omitted field, which leaves the row unchanged; for title, an explicit
null is likewise distinguished from omission, but the write violates the
NOT NULL title constraint: the request fails with a store error and the
stored row keeps its prior title instead of being set to null. -/
theorem explicit_null_update_semantics (s : Store) (task_id : Nat) (t : Task)
    (hfind : findTask s task_id = some t) (ht : t.title.isSome = true) :
    ((update_task task_id ⟨FieldU.unset, FieldU.set none, FieldU.unset, FieldU.unset⟩ s).1
        = Response.taskBody { t with assigned_to := none })
    ∧ ((update_task task_id ⟨FieldU.unset, FieldU.unset, FieldU.set none, FieldU.unset⟩ s).1
        = Response.taskBody { t with status := none })
    ∧ ((update_task task_id ⟨FieldU.unset, FieldU.unset, FieldU.unset, FieldU.set none⟩ s).1
        = Response.taskBody { t with due_date := none })
    ∧ ((update_task task_id ⟨FieldU.unset, FieldU.unset, FieldU.unset, FieldU.unset⟩ s).1
        = Response.taskBody t)
    ∧ ((update_task task_id ⟨FieldU.set none, FieldU.unset, FieldU.unset, FieldU.unset⟩ s).1
        = Response.storeFault "IntegrityError: null value in column title")
    ∧ ((update_task task_id ⟨FieldU.set none, FieldU.unset, FieldU.unset, FieldU.unset⟩ s).2
        = s) := by
  obtain ⟨tid, ttitle, tass, tstat, tdue⟩ := t
  simp only [Option.isSome] at ht
  cases ttitle with
  | none => simp at ht
  | some v =>
    refine ⟨?_, ?_, ?_, ?_, ?_, ?_⟩ <;>
      simp [update_task, hfind, applyUpdate, applyField, rowValid]

/-- Witness for C10 at a concrete one-row store whose task has every
column populated. -/
theorem explicit_null_update_semantics_witness :
    ((update_task 1 ⟨FieldU.unset, FieldU.set none, FieldU.unset, FieldU.unset⟩
        ⟨[⟨some 1, some "A", some "Bob", some "open", some "2026-01-01"⟩], 2⟩).1
        = Response.taskBody ⟨some 1, some "A", none, some "open", some "2026-01-01"⟩)
    ∧ ((update_task 1 ⟨FieldU.unset, FieldU.unset, FieldU.set none, FieldU.unset⟩
        ⟨[⟨some 1, some "A", some "Bob", some "open", some "2026-01-01"⟩], 2⟩).1
        = Response.taskBody ⟨some 1, some "A", some "Bob", none, some "2026-01-01"⟩)
    ∧ ((update_task 1 ⟨FieldU.unset, FieldU.unset, FieldU.unset, FieldU.set none⟩
        ⟨[⟨some 1, some "A", some "Bob", some "open", some "2026-01-01"⟩], 2⟩).1
        = Response.taskBody ⟨some 1, some "A", some "Bob", some "open", none⟩)
    ∧ ((update_task 1 ⟨FieldU.unset, FieldU.unset, FieldU.unset, FieldU.unset⟩
        ⟨[⟨some 1, some "A", some "Bob", some "open", some "2026-01-01"⟩], 2⟩).1
        = Response.taskBody ⟨some 1, some "A", some "Bob", some "open", some "2026-01-01"⟩)
    ∧ ((update_task 1 ⟨FieldU.set none, FieldU.unset, FieldU.unset, FieldU.unset⟩
        ⟨[⟨some 1, some "A", some "Bob", some "open", some "2026-01-01"⟩], 2⟩).1
        = Response.storeFault "IntegrityError: null value in column title")
    ∧ ((update_task 1 ⟨FieldU.set none, FieldU.unset, FieldU.unset, FieldU.unset⟩
        ⟨[⟨some 1, some "A", some "Bob", some "open", some "2026-01-01"⟩], 2⟩).2
        = ⟨[⟨some 1, some "A", some "Bob", some "open", some "2026-01-01"⟩], 2⟩) :=
  explicit_null_update_semantics
    ⟨[⟨some 1, some "A", some "Bob", some "open", some "2026-01-01"⟩], 2⟩ 1
    ⟨some 1, some "A", some "Bob", some "open", some "2026-01-01"⟩
    (by decide) (by decide)

end TaskDashboard
